import Mathlib

/-!
Shallow embedding of the proof-parameter registry in `src/registry.rs`
(crate `filecoin-proofs-api`): the two registries `RegisteredSealProof`
and `RegisteredPoStProof` and their operations `version`, `sector_size`,
`partitions`, `single_partition_proof_len`, `as_v1_config` and
`cache_identifier`.

External collaborators (the crate `filecoin_proofs_v1`) are modelled as
follows, matching the spec's treatment of them as external constants:
  * the sector-size constant table is given concrete values
    (1 KiB = 1024, ..., 32 GiB = 2^35), the values fixed by the spec's
    examples and the standard binary units named by the constants;
  * `POST_CHALLENGE_COUNT`, `POST_CHALLENGED_NODES` and
    `SINGLE_PARTITION_PROOF_LEN` are opaque external numbers, so each
    definition that reads one takes it as an explicit argument;
  * the process-wide atomic `DEFAULT_POREP_PROOF_PARTITIONS` is mutable
    shared state: operations that touch it take the current value and
    return the value read together with the post-state, so that
    "read, never written" is a provable statement;
  * the fallible external derivation `get_cache_identifier` is an
    arbitrary function into `Except`;
  * a failed `assert_eq!` (a panic) is modelled as `none`.
-/

/-- Modelled from the spec: the external sector-size constant table of
`filecoin_proofs_v1::constants`. 1 KiB in bytes (spec example: 1024). -/
def SECTOR_SIZE_ONE_KIB : Nat := 1024

/-- Modelled from the spec: 16 MiB in bytes. -/
def SECTOR_SIZE_16_MIB : Nat := 16 * 1024 * 1024

/-- Modelled from the spec: 256 MiB in bytes. -/
def SECTOR_SIZE_256_MIB : Nat := 256 * 1024 * 1024

/-- Modelled from the spec: 1 GiB in bytes (spec example: 1 <<< 30). -/
def SECTOR_SIZE_1_GIB : Nat := 1024 * 1024 * 1024

/-- Modelled from the spec: 32 GiB in bytes. -/
def SECTOR_SIZE_32_GIB : Nat := 32 * 1024 * 1024 * 1024

/-- `filecoin_proofs_v1::types::SectorSize` - a newtype over `u64`. -/
structure SectorSize where
  val : Nat
deriving DecidableEq, Repr

/-- `filecoin_proofs_v1::types::PoRepProofPartitions` - a newtype over `u8`. -/
structure PoRepProofPartitions where
  val : Nat
deriving DecidableEq, Repr

/-- `filecoin_proofs_v1::types::PoRepConfig`: the sealing configuration,
with exactly the fields set by the struct literal in
`RegisteredSealProof::as_v1_config`. -/
structure PoRepConfig where
  sector_size : SectorSize
  partitions : PoRepProofPartitions
deriving DecidableEq, Repr

/-- `filecoin_proofs_v1::types::PoStConfig`: the storage configuration,
with exactly the fields set by the struct literal in
`RegisteredPoStProof::as_v1_config`. -/
structure PoStConfig where
  sector_size : SectorSize
  challenge_count : Nat
  challenged_nodes : Nat
deriving DecidableEq, Repr

/-- `enum Version` - the protocol versions; currently only `V1`. -/
inductive Version where
  | V1
deriving DecidableEq, Repr

/-- `enum RegisteredSealProof` - the sealing registry's closed identifier set. -/
inductive RegisteredSealProof where
  | StackedDrg1KiBV1
  | StackedDrg16MiBV1
  | StackedDrg256MiBV1
  | StackedDrg1GiBV1
  | StackedDrg32GiBV1
deriving DecidableEq, Repr

/-- `enum RegisteredPoStProof` - the storage registry's closed identifier set. -/
inductive RegisteredPoStProof where
  | StackedDrg1KiBV1
  | StackedDrg16MiBV1
  | StackedDrg256MiBV1
  | StackedDrg1GiBV1
  | StackedDrg32GiBV1
deriving DecidableEq, Repr

/-- An atomic load with `Ordering::Relaxed` from the shared cell: it
returns the current value and leaves the cell's state unchanged. -/
def loadRelaxed (st : Nat) : Nat × Nat := (st, st)

/-- `RegisteredSealProof::version`. -/
def RegisteredSealProof.version : RegisteredSealProof → Version
  | .StackedDrg1KiBV1 | .StackedDrg16MiBV1 | .StackedDrg256MiBV1 | .StackedDrg1GiBV1
  | .StackedDrg32GiBV1 => Version.V1

/-- `RegisteredSealProof::sector_size`. -/
def RegisteredSealProof.sector_size (p : RegisteredSealProof) : SectorSize :=
  let size := match p with
    | .StackedDrg1KiBV1 => SECTOR_SIZE_ONE_KIB
    | .StackedDrg16MiBV1 => SECTOR_SIZE_16_MIB
    | .StackedDrg256MiBV1 => SECTOR_SIZE_256_MIB
    | .StackedDrg1GiBV1 => SECTOR_SIZE_1_GIB
    | .StackedDrg32GiBV1 => SECTOR_SIZE_32_GIB
  SectorSize.mk size

/-- `RegisteredSealProof::partitions`: an atomic relaxed load of the
shared `DEFAULT_POREP_PROOF_PARTITIONS` cell. `st` is the cell's current
value (a `u8`); the result is the value read paired with the post-state
of the cell. -/
def RegisteredSealProof.partitions : RegisteredSealProof → Nat → Nat × Nat
  | .StackedDrg1KiBV1, st | .StackedDrg16MiBV1, st | .StackedDrg256MiBV1, st
  | .StackedDrg1GiBV1, st | .StackedDrg32GiBV1, st => loadRelaxed st

/-- `RegisteredSealProof::single_partition_proof_len`. `len` is the
external constant `filecoin_proofs_v1::SINGLE_PARTITION_PROOF_LEN`. -/
def RegisteredSealProof.single_partition_proof_len : RegisteredSealProof → Nat → Nat
  | .StackedDrg1KiBV1, len | .StackedDrg16MiBV1, len | .StackedDrg256MiBV1, len
  | .StackedDrg1GiBV1, len | .StackedDrg32GiBV1, len => len

/-- `RegisteredSealProof::as_v1_config`: asserts `version = V1` (a failed
assertion, i.e. a panic, is `none`), then assembles the `PoRepConfig`
from `sector_size` and `partitions`. Returns the result paired with the
post-state of the shared partition-count cell. -/
def RegisteredSealProof.as_v1_config (p : RegisteredSealProof) (st : Nat) :
    Option PoRepConfig × Nat :=
  if p.version = Version.V1 then
    match p with
    | .StackedDrg1KiBV1 | .StackedDrg16MiBV1 | .StackedDrg256MiBV1 | .StackedDrg1GiBV1
    | .StackedDrg32GiBV1 =>
      let r := p.partitions st
      (some (PoRepConfig.mk p.sector_size (PoRepProofPartitions.mk r.1)), r.2)
  else (none, st)

/-- `RegisteredSealProof::cache_identifier`: dispatches on `version`,
builds the configuration with `as_v1_config` (whose panic is `none`,
propagated by `Option.map`) and hands it to the external derivation
routine `derive` (`PoRepConfig::get_cache_identifier`), returning that
routine's result unchanged, paired with the post-state of the shared
cell. -/
def RegisteredSealProof.cache_identifier {ε : Type} (p : RegisteredSealProof)
    (derive : PoRepConfig → Except ε String) (st : Nat) :
    Option (Except ε String) × Nat :=
  match p.version with
  | Version.V1 =>
    let r := p.as_v1_config st
    (r.1.map derive, r.2)

/-- `RegisteredPoStProof::version`. -/
def RegisteredPoStProof.version : RegisteredPoStProof → Version
  | .StackedDrg1KiBV1 | .StackedDrg16MiBV1 | .StackedDrg256MiBV1 | .StackedDrg1GiBV1
  | .StackedDrg32GiBV1 => Version.V1

/-- `RegisteredPoStProof::sector_size`. -/
def RegisteredPoStProof.sector_size (q : RegisteredPoStProof) : SectorSize :=
  let size := match q with
    | .StackedDrg1KiBV1 => SECTOR_SIZE_ONE_KIB
    | .StackedDrg16MiBV1 => SECTOR_SIZE_16_MIB
    | .StackedDrg256MiBV1 => SECTOR_SIZE_256_MIB
    | .StackedDrg1GiBV1 => SECTOR_SIZE_1_GIB
    | .StackedDrg32GiBV1 => SECTOR_SIZE_32_GIB
  SectorSize.mk size

/-- `RegisteredPoStProof::partitions`: the literal constant `1` for every
variant; the shared partition-count cell is not an input at all. -/
def RegisteredPoStProof.partitions : RegisteredPoStProof → Nat
  | .StackedDrg1KiBV1 | .StackedDrg16MiBV1 | .StackedDrg256MiBV1 | .StackedDrg1GiBV1
  | .StackedDrg32GiBV1 => 1

/-- `RegisteredPoStProof::single_partition_proof_len`. `len` is the same
external constant `filecoin_proofs_v1::SINGLE_PARTITION_PROOF_LEN` the
sealing registry reads. -/
def RegisteredPoStProof.single_partition_proof_len : RegisteredPoStProof → Nat → Nat
  | .StackedDrg1KiBV1, len | .StackedDrg16MiBV1, len | .StackedDrg256MiBV1, len
  | .StackedDrg1GiBV1, len | .StackedDrg32GiBV1, len => len

/-- `RegisteredPoStProof::as_v1_config`: asserts `version = V1` (a panic
is `none`), then assembles the `PoStConfig` from `sector_size` and the
external constants `cc = POST_CHALLENGE_COUNT` and
`cn = POST_CHALLENGED_NODES`. -/
def RegisteredPoStProof.as_v1_config (q : RegisteredPoStProof) (cc cn : Nat) :
    Option PoStConfig :=
  if q.version = Version.V1 then
    match q with
    | .StackedDrg1KiBV1 | .StackedDrg16MiBV1 | .StackedDrg256MiBV1 | .StackedDrg1GiBV1
    | .StackedDrg32GiBV1 =>
      some (PoStConfig.mk q.sector_size cc cn)
  else none

/-- `RegisteredPoStProof::cache_identifier`: dispatches on `version`,
builds the configuration with `as_v1_config` and hands it to the
external derivation routine `derive`
(`PoStConfig::get_cache_identifier`), returning that routine's result
unchanged. -/
def RegisteredPoStProof.cache_identifier {ε : Type} (q : RegisteredPoStProof)
    (derive : PoStConfig → Except ε String) (cc cn : Nat) :
    Option (Except ε String) :=
  match q.version with
  | Version.V1 => (q.as_v1_config cc cn).map derive

/-- The field names of the storage configuration struct literal in
`RegisteredPoStProof::as_v1_config` in the source, in order. -/
def postConfigFieldNames : List String :=
  ["sector_size", "challenge_count", "challenged_nodes"]

/-- Modelled from the claim's words (spec section 8): the storage
configuration as the spec describes it, carrying a `partitions` field
alongside the three fields the code sets. -/
def claimedStorageConfigFieldNames : List String :=
  ["sector_size", "partitions", "challenge_count", "challenged_nodes"]

/-- The like-named storage-registry variant for each sealing-registry
variant (the pairing named by the claim). -/
def correspondingPoSt : RegisteredSealProof → RegisteredPoStProof
  | .StackedDrg1KiBV1 => .StackedDrg1KiBV1
  | .StackedDrg16MiBV1 => .StackedDrg16MiBV1
  | .StackedDrg256MiBV1 => .StackedDrg256MiBV1
  | .StackedDrg1GiBV1 => .StackedDrg1GiBV1
  | .StackedDrg32GiBV1 => .StackedDrg32GiBV1

/-- C1: for every identifier in both registries, `as_v1_config` does not
fault (the internal version assertion always holds, so the result is
never the panic value `none`) and the `sector_size` field of the
returned configuration equals `sector_size` of the identifier. -/
theorem as_config_no_fault_and_sector_size_agree
    (p : RegisteredSealProof) (st : Nat)
    (q : RegisteredPoStProof) (cc cn : Nat) :
    (∃ c, (p.as_v1_config st).1 = some c ∧ c.sector_size = p.sector_size) ∧
    (∃ d, q.as_v1_config cc cn = some d ∧ d.sector_size = q.sector_size) := by
  cases p <;> cases q <;> exact ⟨⟨_, rfl, rfl⟩, ⟨_, rfl, rfl⟩⟩

/-- C2: `version` is total on both registries (it is a total function of
the closed enumerations) and returns the single supported version `V1`
for every identifier. -/
theorem version_total_and_v1
    (p : RegisteredSealProof) (q : RegisteredPoStProof) :
    p.version = Version.V1 ∧ q.version = Version.V1 := by
  cases p <;> cases q <;> exact ⟨rfl, rfl⟩

/-- C3: for every sealing identifier, the `partitions` field of the
configuration equals `partitions` of the identifier; `partitions`
returns exactly the current value `st` of the process-wide default
partition-count cell; and neither `partitions` nor `as_v1_config`
writes the cell (the post-state equals `st`). -/
theorem seal_config_partitions_from_shared_default
    (p : RegisteredSealProof) (st : Nat) :
    (p.as_v1_config st).1 =
      some (PoRepConfig.mk p.sector_size (PoRepProofPartitions.mk (p.partitions st).1)) ∧
    (p.partitions st).1 = st ∧
    (p.partitions st).2 = st ∧
    (p.as_v1_config st).2 = st := by
  cases p <;> exact ⟨rfl, rfl, rfl, rfl⟩

/-- C4 (counterexample): the claim asserts `as_config(id).partitions`
for the storage registry, but the storage configuration the code builds
has no `partitions` field at all: the claimed field list contains
"partitions" while the field list of the source's struct literal does
not. -/
theorem storage_config_has_no_partitions_field :
    "partitions" ∈ claimedStorageConfigFieldNames ∧
    "partitions" ∉ postConfigFieldNames := by
  decide

/-- C4 (amended): for every storage identifier, `partitions` is the
fixed literal constant `1` (by its definition it does not read the
shared tunable default at all), and `as_v1_config` assembles exactly
the fields `sector_size`, `challenge_count` and `challenged_nodes` -
there is no partitions field in the configuration. -/
theorem storage_partitions_fixed_one
    (q : RegisteredPoStProof) (cc cn : Nat) :
    q.partitions = 1 ∧
    q.as_v1_config cc cn = some (PoStConfig.mk q.sector_size cc cn) := by
  cases q <;> exact ⟨rfl, rfl⟩

/-- C5: for every storage identifier, the configuration's
`challenge_count` and `challenged_nodes` equal the external fixed
constants (`POST_CHALLENGE_COUNT = cc`, `POST_CHALLENGED_NODES = cn`),
and these fields are identical across any two identifiers. -/
theorem storage_config_challenge_constants
    (q r : RegisteredPoStProof) (cc cn : Nat) :
    q.as_v1_config cc cn = some (PoStConfig.mk q.sector_size cc cn) ∧
    (q.as_v1_config cc cn).map PoStConfig.challenge_count = some cc ∧
    (q.as_v1_config cc cn).map PoStConfig.challenged_nodes = some cn ∧
    (q.as_v1_config cc cn).map PoStConfig.challenge_count =
      (r.as_v1_config cc cn).map PoStConfig.challenge_count ∧
    (q.as_v1_config cc cn).map PoStConfig.challenged_nodes =
      (r.as_v1_config cc cn).map PoStConfig.challenged_nodes := by
  cases q <;> cases r <;> exact ⟨rfl, rfl, rfl, rfl, rfl⟩

/-- C6: for every identifier in either registry, `cache_identifier`
dispatches on `version`, builds the configuration with `as_v1_config`,
and returns exactly the external derivation routine's result - never a
panic (`none`), never a transformed result: whatever `Except` value the
routine produces, also an `error`, is returned unchanged (and the
shared cell is not written). -/
theorem cache_identifier_delegates_and_propagates
    {ε : Type} (ds : PoRepConfig → Except ε String)
    (dp : PoStConfig → Except ε String)
    (p : RegisteredSealProof) (st : Nat)
    (q : RegisteredPoStProof) (cc cn : Nat) :
    p.cache_identifier ds st =
      (some (ds (PoRepConfig.mk p.sector_size (PoRepProofPartitions.mk st))), st) ∧
    q.cache_identifier dp cc cn =
      some (dp (PoStConfig.mk q.sector_size cc cn)) := by
  cases p <;> cases q <;> exact ⟨rfl, rfl⟩

/-- C7: determinism. For the sealing registry, a first call leaves the
shared default-partition-count cell unchanged, so a second call run on
the post-state of the first returns the identical result (for both
`as_v1_config` and `cache_identifier`, with a fixed external derivation
function). The storage registry's operations read no mutable state at
all, so two calls are the same pure application and agree likewise. -/
theorem repeated_calls_identical
    {ε : Type} (ds : PoRepConfig → Except ε String)
    (dp : PoStConfig → Except ε String)
    (p : RegisteredSealProof) (st : Nat)
    (q : RegisteredPoStProof) (cc cn : Nat) :
    p.as_v1_config ((p.as_v1_config st).2) = p.as_v1_config st ∧
    p.cache_identifier ds ((p.cache_identifier ds st).2) = p.cache_identifier ds st ∧
    q.as_v1_config cc cn = q.as_v1_config cc cn ∧
    q.cache_identifier dp cc cn = q.cache_identifier dp cc cn := by
  cases p <;> exact ⟨rfl, rfl, rfl, rfl⟩

/-- C8: the sealing identifier `StackedDrg1KiBV1` with the shared
default partition count at 10 yields the configuration with sector size
1024 and 10 partitions (and leaves the shared cell at 10). -/
theorem seal_config_1kib_default_ten :
    RegisteredSealProof.as_v1_config RegisteredSealProof.StackedDrg1KiBV1 10 =
      (some (PoRepConfig.mk (SectorSize.mk 1024) (PoRepProofPartitions.mk 10)), 10) := by
  decide

/-- C9: `single_partition_proof_len` is total on both registries (a
total function of the closed enumerations) and returns the same fixed
external constant `SINGLE_PARTITION_PROOF_LEN = len` for every
identifier of either registry. -/
theorem single_partition_proof_len_constant
    (p : RegisteredSealProof) (q : RegisteredPoStProof) (len : Nat) :
    p.single_partition_proof_len len = len ∧
    q.single_partition_proof_len len = len := by
  cases p <;> cases q <;> exact ⟨rfl, rfl⟩

/-- C10: the two registries agree on capacity classes: each sealing
variant and its like-named storage variant return the same
`SectorSize`. -/
theorem registries_sector_size_agree (p : RegisteredSealProof) :
    (correspondingPoSt p).sector_size = p.sector_size := by
  cases p <;> rfl
